import Mathlib

/-!
Verification development for the habit-tracker core: the habit service
(Firestore repository layer, src/src/config/firebaseConfig.ts, second
section) and the synchronization store (src/src/hooks/useHabits.tsx).
Timestamps are opaque to the logic under study and are modelled as Nat
ticks; asynchronous remote calls are modelled by passing the outcome of
the call as an explicit `Except` argument, and the sequence of state
writes and await points of each operation is recorded as an event trace.
-/

namespace HabitTracker

/-- Habit frequency, the closed set of src/src/types/index.ts. -/
inductive Frequency
  | daily
  | weekly
  | monthly
deriving DecidableEq, Repr

/-- The in-memory Habit value (interface Habit, src/src/types/index.ts).
Optional TS fields are Option; timestamps are Nat ticks. -/
structure Habit where
  id : String
  userId : String
  title : String
  description : Option String
  frequency : Frequency
  createdAt : Nat
  updatedAt : Nat
  completedDates : List String
  color : Option String
  icon : Option String
deriving DecidableEq, Repr

/-- Creation input (interface HabitInput, src/src/types/index.ts). -/
structure HabitInput where
  title : String
  description : Option String
  frequency : Frequency
  color : Option String
  icon : Option String
deriving DecidableEq, Repr

/-- A Partial HabitInput: every field optional, none meaning the key is
absent from the patch object. -/
structure HabitPatch where
  title : Option String
  description : Option String
  frequency : Option Frequency
  color : Option String
  icon : Option String
deriving DecidableEq, Repr

/-- The wire document (interface HabitDocument, src/src/types/index.ts). -/
structure HabitDocument where
  userId : String
  title : String
  description : Option String
  frequency : Frequency
  createdAt : Nat
  updatedAt : Nat
  completedDates : List String
  color : Option String
  icon : Option String
deriving DecidableEq, Repr

/-- A value thrown by the store client, as seen by handleFirestoreError:
code is none when the runtime guard isFirestoreError fails (the value has
no string code property); message mirrors the optional message property. -/
structure StoreErr where
  code : Option String
  message : Option String
deriving DecidableEq, Repr

namespace HabitService

/-- handleFirestoreError (habit service): maps a store error to a
human-readable message. The default branch uses JS truthiness
(error.message || message), so an empty raw message also falls back to
the generic string. -/
def handleFirestoreError (error : StoreErr) (operation : String) : String :=
  let dflt := "Failed to " ++ operation ++ ". Please try again."
  match error.code with
  | none => dflt
  | some c =>
    if c = "permission-denied" then
      "You do not have permission to perform this action."
    else if c = "not-found" then
      "The requested item was not found."
    else if c = "already-exists" then
      "This item already exists."
    else if c = "resource-exhausted" then
      "Too many requests. Please try again later."
    else if c = "unavailable" then
      "Service temporarily unavailable. Please check your connection."
    else
      match error.message with
      | some m => if m = "" then dflt else m
      | none => dflt

/-- The habit value returned by the service createHabit: trimmed title,
description defaulted to the empty string, empty completedDates, id from
the store, device-local timestamps. -/
def createHabit (userId : String) (input : HabitInput) (docId : String)
    (now : Nat) : Habit :=
  { id := docId
    userId := userId
    title := input.title.trim
    description := some ((input.description.getD "").trim)
    frequency := input.frequency
    createdAt := now
    updatedAt := now
    completedDates := []
    color := input.color
    icon := input.icon }

/-- The completedDates transformation inside the service
toggleHabitCompletion: dateIndex is the JS indexOf result (−1 when
absent); the branch on dateIndex < 0 is kept exactly as in the source. -/
def toggleHabitCompletionDates (completedDates : List String)
    (date : String) : List String :=
  let dateIndex : Int :=
    match completedDates.findIdx? (fun d => d = date) with
    | some i => (i : Int)
    | none => -1
  if dateIndex < 0 then
    completedDates.filter (fun d => d ≠ date)
  else
    completedDates ++ [date]

/-- The service toggleHabitCompletion over a modelled remote collection
(association list of document id and document): fetch the document,
fail when missing (the thrown plain Error has no code, so the caught
message is the generic one), otherwise write back the transformed
completedDates with a server updatedAt. -/
def toggleHabitCompletionRemote (store : List (String × HabitDocument))
    (habitId : String) (date : String) (serverNow : Nat) :
    Except String (List (String × HabitDocument)) :=
  match store.find? (fun e => e.1 = habitId) with
  | none =>
      .error (handleFirestoreError ⟨none, some "Habit not found"⟩
        "toggle habit completion")
  | some found =>
      let newCompletedDates :=
        toggleHabitCompletionDates found.2.completedDates date
      .ok (store.map (fun e =>
        if e.1 = habitId then
          (e.1, { e.2 with completedDates := newCompletedDates,
                           updatedAt := serverNow })
        else e))

/-- The service updateHabit as applied by the remote store: a merge
patch of the supplied fields plus a server updatedAt; keys whose value
is undefined are deleted before sending, so a none field leaves the
remote field untouched. -/
def applyUpdateDoc (d : HabitDocument) (p : HabitPatch) (serverNow : Nat) :
    HabitDocument :=
  { d with
    title := p.title.getD d.title
    description := match p.description with
      | some v => some v
      | none => d.description
    frequency := p.frequency.getD d.frequency
    color := match p.color with
      | some v => some v
      | none => d.color
    icon := match p.icon with
      | some v => some v
      | none => d.icon
    updatedAt := serverNow }

end HabitService

namespace UseHabits

/-- The state held by HabitsProvider: the habits list and the loading
and error slots (src/src/hooks/useHabits.tsx). -/
structure St where
  habits : List Habit
  loading : Bool
  error : Option String
deriving DecidableEq, Repr

/-- One observable step of a store operation: a state write, or an
await point where a repository call is issued and resolves. -/
inductive Ev
  | setHabits (l : List Habit)
  | setLoading (b : Bool)
  | setError (e : Option String)
  | remoteCreate
  | remoteUpdate
  | remoteDelete
  | remoteGet
deriving DecidableEq, Repr

/-- Whether an event writes the habits list. -/
def Ev.isSetHabits : Ev → Bool
  | .setHabits _ => true
  | _ => false

/-- Whether an event is an await point on the repository. -/
def Ev.isRemote : Ev → Bool
  | .remoteCreate | .remoteUpdate | .remoteDelete | .remoteGet => true
  | _ => false

/-- Whether an event records a failure message in the error slot. -/
def Ev.isErrorWrite : Ev → Bool
  | .setError (some _) => true
  | _ => false

/-- refreshHabits: no-op when signed out; otherwise set loading, fetch
the authoritative list, replace habits on success or record the message
on failure, and clear loading in the finally block. Never throws. -/
def refreshHabits (user : Option String) (st : St)
    (fetch : Except String (List Habit)) : St × List Ev :=
  match user with
  | none => (st, [])
  | some _ =>
    match fetch with
    | .ok fresh =>
        ({ st with habits := fresh, loading := false },
         [.setLoading true, .remoteGet, .setHabits fresh,
          .setLoading false])
    | .error msg =>
        ({ st with error := some msg, loading := false },
         [.setLoading true, .remoteGet, .setError (some msg),
          .setLoading false])

/-- createHabit of the synchronization store: requires a session, clears
the error, awaits the repository create, and only on success prepends
the returned habit; on failure records the message and re-throws. -/
def createHabit (user : Option String) (st : St) (_input : HabitInput)
    (remote : Except String Habit) : St × List Ev × Except String Habit :=
  match user with
  | none => (st, [], .error "You must be logged in to create a habit")
  | some _ =>
    match remote with
    | .ok habit =>
        ({ st with habits := habit :: st.habits, error := none },
         [.setError none, .remoteCreate, .setHabits (habit :: st.habits)],
         .ok habit)
    | .error msg =>
        ({ st with error := some msg },
         [.setError none, .remoteCreate, .setError (some msg)],
         .error msg)

/-- The spread { ...habit, ...updates, updatedAt: new Date() } of the
optimistic update: fields present in the patch override, updatedAt is a
device timestamp. -/
def applyPatch (h : Habit) (p : HabitPatch) (now : Nat) : Habit :=
  { h with
    title := p.title.getD h.title
    description := match p.description with
      | some v => some v
      | none => h.description
    frequency := p.frequency.getD h.frequency
    color := match p.color with
      | some v => some v
      | none => h.color
    icon := match p.icon with
      | some v => some v
      | none => h.icon
    updatedAt := now }

/-- The optimistic list rewrite of updateHabit: patch the matching
entry in place, leave the rest untouched. -/
def optimisticUpdate (habits : List Habit) (id : String) (p : HabitPatch)
    (now : Nat) : List Habit :=
  habits.map (fun h => if h.id = id then applyPatch h p now else h)

/-- updateHabit of the synchronization store: optimistic in-place
rewrite before the repository call; on failure record the message,
resync via refreshHabits, then re-throw. -/
def updateHabit (user : Option String) (st : St) (id : String)
    (p : HabitPatch) (now : Nat) (remote : Except String Unit)
    (fetch : Except String (List Habit)) :
    St × List Ev × Except String Unit :=
  match user with
  | none => (st, [], .error "You must be logged in to update habits")
  | some u =>
    let optimistic := optimisticUpdate st.habits id p now
    match remote with
    | .ok _ =>
        ({ st with habits := optimistic, error := none },
         [.setError none, .setHabits optimistic, .remoteUpdate],
         .ok ())
    | .error msg =>
        let st1 : St := { st with habits := optimistic, error := some msg }
        let r := refreshHabits (some u) st1 fetch
        (r.1,
         [.setError none, .setHabits optimistic, .remoteUpdate,
          .setError (some msg)] ++ r.2,
         .error msg)

/-- deleteHabit of the synchronization store: optimistic removal before
the repository call; on failure record, resync, re-throw. -/
def deleteHabit (user : Option String) (st : St) (id : String)
    (remote : Except String Unit) (fetch : Except String (List Habit)) :
    St × List Ev × Except String Unit :=
  match user with
  | none => (st, [], .error "You must be logged in to delete a habit")
  | some u =>
    let remaining := st.habits.filter (fun h => h.id ≠ id)
    match remote with
    | .ok _ =>
        ({ st with habits := remaining, error := none },
         [.setError none, .setHabits remaining, .remoteDelete],
         .ok ())
    | .error msg =>
        let st1 : St := { st with habits := remaining, error := some msg }
        let r := refreshHabits (some u) st1 fetch
        (r.1,
         [.setError none, .setHabits remaining, .remoteDelete,
          .setError (some msg)] ++ r.2,
         .error msg)

/-- The completedDates flip inside the hook toggleCompletion: remove
every occurrence when the date is present, append it when absent. -/
def toggleDates (completedDates : List String) (date : String) :
    List String :=
  if date ∈ completedDates then
    completedDates.filter (fun d => d ≠ date)
  else
    completedDates ++ [date]

/-- The per-habit step of the hook toggleCompletion map. -/
def toggleStep (id : String) (date : String) (h : Habit) : Habit :=
  if h.id = id then
    { h with completedDates := toggleDates h.completedDates date }
  else h

/-- toggleCompletion of the synchronization store: requires a session,
clears the error, flips the matching habit locally. The try block holds
no repository call, so the catch branch has no await to fail and the
operation always resolves. -/
def toggleCompletion (user : Option String) (st : St) (id : String)
    (date : String) : St × List Ev × Except String Unit :=
  match user with
  | none => (st, [], .error "You must be logged in to track a habit")
  | some _ =>
    let newHabits := st.habits.map (toggleStep id date)
    ({ st with habits := newHabits, error := none },
     [.setError none, .setHabits newHabits],
     .ok ())

end UseHabits

/-- The state of the subscription effect of HabitsProvider: the visible
list, the loading flag, the error slot, the token of the live listener
when one is registered, and a fresh-token counter. -/
structure SubSt where
  habits : List Habit
  loading : Bool
  error : Option String
  activeTok : Option Nat
  nextTok : Nat
deriving DecidableEq, Repr

/-- How many live listeners the fake store would count. -/
def listenerCount (s : SubSt) : Nat :=
  match s.activeTok with
  | some _ => 1
  | none => 0

/-- The subscription effect on a session change: the cleanup of the
previous effect releases the prior listener, then a signed-out session
clears the list and stops loading, while a signed-in one starts loading
and registers a fresh listener. -/
def attachSession (s : SubSt) (user : Option String) : SubSt :=
  let s0 : SubSt := { s with activeTok := none }
  match user with
  | none => { s0 with habits := [], loading := false }
  | some _ =>
      { s0 with loading := true, activeTok := some s0.nextTok,
                nextTok := s0.nextTok + 1 }

/-- Delivery of a snapshot through a listener handle: a released handle
(token no longer active) is discarded, otherwise the snapshot replaces
the list and clears loading. -/
def applySnapshot (s : SubSt) (tok : Nat) (l : List Habit) : SubSt :=
  if s.activeTok = some tok then
    { s with habits := l, loading := false }
  else s

/-- A concrete habit document used by the concrete evaluations below. -/
def sampleDoc : HabitDocument :=
  { userId := "u1"
    title := "Read"
    description := none
    frequency := .daily
    createdAt := 0
    updatedAt := 0
    completedDates := ["2024-01-01"]
    color := none
    icon := none }

/-- A concrete habit used by the concrete evaluations below. -/
def sampleHabit : Habit :=
  { id := "h1"
    userId := "u1"
    title := "Read"
    description := none
    frequency := .daily
    createdAt := 0
    updatedAt := 0
    completedDates := ["2024-01-01"]
    color := none
    icon := none }

/-- The creation input of the scenario in the spec. -/
def drinkWater : HabitInput :=
  { title := "Drink water"
    description := none
    frequency := .daily
    color := none
    icon := none }

/-- A patch carrying only a title, as in update(id, { title: X }). -/
def titlePatch (x : String) : HabitPatch :=
  { title := some x
    description := none
    frequency := none
    color := none
    icon := none }

/-- C1: the claim says both toggle implementations remove a present date
and add an absent one. The service toggleHabitCompletion does the
opposite of its own comment: at a store holding one habit whose
completedDates is exactly the toggled date, it appends the date again
(the date stays present, duplicated), and at an empty completedDates it
leaves the list empty (the date is never added). -/
theorem C1_service_toggle_polarity_bug :
    HabitService.toggleHabitCompletionRemote [("h1", sampleDoc)] "h1"
        "2024-01-01" 1 =
      .ok [("h1", { sampleDoc with
        completedDates := ["2024-01-01", "2024-01-01"], updatedAt := 1 })] ∧
    HabitService.toggleHabitCompletionRemote
        [("h1", { sampleDoc with completedDates := [] })] "h1"
        "2024-01-01" 1 =
      .ok [("h1", { sampleDoc with completedDates := [], updatedAt := 1 })] := by
  constructor <;> rfl

section ToggleLemmas

/-- One hook toggle flips membership of the toggled date. -/
theorem toggleDates_mem_iff (cds : List String) (date : String) :
    date ∈ UseHabits.toggleDates cds date ↔ date ∉ cds := by
  unfold UseHabits.toggleDates
  by_cases h : date ∈ cds <;> simp [h, List.mem_filter]

/-- Two hook toggles restore membership of the toggled date. -/
theorem toggleDates_twice_mem (cds : List String) (date : String) :
    date ∈ UseHabits.toggleDates (UseHabits.toggleDates cds date) date ↔
      date ∈ cds := by
  simp [toggleDates_mem_iff]

/-- The service transformation written with its branch condition
resolved: the found-index test succeeds exactly on membership. -/
theorem svcToggleDates_eq (cds : List String) (date : String) :
    HabitService.toggleHabitCompletionDates cds date =
      if date ∈ cds then cds ++ [date]
      else cds.filter (fun d => d ≠ date) := by
  unfold HabitService.toggleHabitCompletionDates
  cases hf : cds.findIdx? (fun d => d = date) with
  | none =>
      have hmem : date ∉ cds := by
        intro hmemc
        rw [List.findIdx?_eq_none_iff] at hf
        exact absurd (hf date hmemc) (by simp)
      simp [hmem]
  | some i =>
      have hmem : date ∈ cds := by
        by_contra hnot
        have hnone : cds.findIdx? (fun d => d = date) = none := by
          rw [List.findIdx?_eq_none_iff]
          intro x hx
          simp only [decide_eq_false_iff_not]
          intro hxe
          exact hnot (hxe ▸ hx)
        rw [hnone] at hf
        cases hf
      have hpos : ¬ ((i : Int) < 0) := by omega
      simp [hmem, hpos]

/-- A single service toggle never changes membership of the toggled
date: present stays present (duplicated), absent stays absent. -/
theorem svcToggleDates_mem (cds : List String) (date : String) :
    date ∈ HabitService.toggleHabitCompletionDates cds date ↔
      date ∈ cds := by
  rw [svcToggleDates_eq]
  by_cases h : date ∈ cds <;> simp [h, List.mem_filter]

/-- The hook toggle keeps a duplicate-free completedDates list
duplicate-free: filtering preserves Nodup, and the appended date was
absent. The service toggle has no such property (see the C2 theorem). -/
theorem toggleDates_nodup (cds : List String) (date : String)
    (hnd : cds.Nodup) : (UseHabits.toggleDates cds date).Nodup := by
  unfold UseHabits.toggleDates
  by_cases hm : date ∈ cds
  · simpa [hm] using hnd.filter (fun d => decide (d ≠ date))
  · rw [if_neg hm, List.nodup_append]
    refine ⟨hnd, List.nodup_singleton date, ?_⟩
    intro a ha hb
    simp only [List.mem_singleton] at hb
    exact hm (hb ▸ ha)

/-- The per-habit toggle step preserves the habit id. -/
theorem toggleStep_id (id date : String) (h : Habit) :
    (UseHabits.toggleStep id date h).id = h.id := by
  unfold UseHabits.toggleStep
  by_cases hid : h.id = id <;> simp [hid]

/-- Membership of the toggled date in the matching habit of a list
toggled twice equals membership in the matching habit of the original
list. -/
theorem find?_double_toggle (l : List Habit) (id date : String) :
    (((l.map (UseHabits.toggleStep id date)).map
        (UseHabits.toggleStep id date)).find? (fun h => h.id = id)).map
      (fun h => decide (date ∈ h.completedDates)) =
    (l.find? (fun h => h.id = id)).map
      (fun h => decide (date ∈ h.completedDates)) := by
  induction l with
  | nil => rfl
  | cons h t ih =>
      simp only [List.map_cons]
      by_cases hid : h.id = id
      · have hcond : (fun h : Habit => decide (h.id = id))
            (UseHabits.toggleStep id date (UseHabits.toggleStep id date h))
            = true := by
          simp [toggleStep_id, hid]
        have hcond0 : (fun h : Habit => decide (h.id = id)) h = true := by
          simp [hid]
        rw [@List.find?_cons_of_pos Habit (fun h => decide (h.id = id)) _ _
              hcond,
            @List.find?_cons_of_pos Habit (fun h => decide (h.id = id)) _ _
              hcond0]
        have hstep : (UseHabits.toggleStep id date
            (UseHabits.toggleStep id date h)).completedDates =
              UseHabits.toggleDates
                (UseHabits.toggleDates h.completedDates date) date := by
          unfold UseHabits.toggleStep
          simp [hid]
        simp only [Option.map_some']
        rw [hstep]
        exact congrArg some (decide_eq_decide.mpr (toggleDates_twice_mem _ _))
      · have hcond : ¬ ((fun h : Habit => decide (h.id = id))
            (UseHabits.toggleStep id date (UseHabits.toggleStep id date h))
            = true) := by
          simp [toggleStep_id, hid]
        have hcond0 : ¬ ((fun h : Habit => decide (h.id = id)) h = true) := by
          simp [hid]
        rw [@List.find?_cons_of_neg Habit (fun h => decide (h.id = id)) _ _
              hcond,
            @List.find?_cons_of_neg Habit (fun h => decide (h.id = id)) _ _
              hcond0]
        exact ih

end ToggleLemmas

/-- C3: two sequential toggles of the same id and date restore the
membership status of the date for the habit matching that id. The
first conjunct settles it for the synchronization store toggle (the
matching habit of the twice-toggled local list carries the date exactly
when the original did); the second settles it for the persisted service
transformation, whose single application already preserves membership. -/
theorem C3_double_toggle_membership (st : UseHabits.St) (u id date : String)
    (cds : List String) :
    ((((UseHabits.toggleCompletion (some u)
          (UseHabits.toggleCompletion (some u) st id date).1 id
          date).1.habits.find? (fun h => h.id = id)).map
        (fun h => decide (date ∈ h.completedDates))) =
      ((st.habits.find? (fun h => h.id = id)).map
        (fun h => decide (date ∈ h.completedDates)))) ∧
    (date ∈ HabitService.toggleHabitCompletionDates
        (HabitService.toggleHabitCompletionDates cds date) date ↔
      date ∈ cds) := by
  constructor
  · exact find?_double_toggle st.habits id date
  · rw [svcToggleDates_mem, svcToggleDates_mem]

/-- C2: the claim says every operation keeps completedDates free of
duplicates. The service toggleHabitCompletion applied to a habit whose
completedDates already holds the toggled date produces that date twice. -/
theorem C2_service_toggle_duplicates :
    ¬ (HabitService.toggleHabitCompletionDates ["2024-02-02"]
        "2024-02-02").Nodup ∧
    (HabitService.toggleHabitCompletionDates ["2024-02-02"]
        "2024-02-02").count "2024-02-02" = 2 := by
  constructor
  · decide
  · rfl

/-- C4 counterexample: the claim says every mutation, create included,
shows its optimistic edit before the network call resolves, and that
after create the new habit sits at index 0 before the remote create
completes. At the scenario of the spec (empty list, input Drink water,
failing remote create) the trace of createHabit holds no habits write at
all: the only events are the error clear, the await point and the error
write, so nothing is visible at index 0 before or after the remote call,
and there is no prepend to revert. -/
theorem C4_create_not_optimistic :
    ((UseHabits.createHabit (some "u1") ⟨[], false, none⟩ drinkWater
        (.error "Failed to create habit. Please try again.")).2.1 =
      [.setError none, .remoteCreate,
       .setError (some "Failed to create habit. Please try again.")]) ∧
    ((UseHabits.createHabit (some "u1") ⟨[], false, none⟩ drinkWater
        (.error "Failed to create habit. Please try again.")).2.1.countP
      UseHabits.Ev.isSetHabits = 0) := by
  constructor <;> rfl

/-- C4 amended: update and delete write their optimistic list before
their await point (the first three trace events are the error clear, the
optimistic write, the remote call); toggleCompletion writes locally and
never reaches a remote call; create performs no optimistic write at all:
on success the returned habit is prepended at index 0 only after the
remote create resolves, and on failure the list is left untouched (so it
never contained the habit) with the error slot set. -/
theorem C4_amended_optimistic_ordering (st : UseHabits.St)
    (u id date : String) (p : HabitPatch) (inp : HabitInput) (now : Nat)
    (hb : Habit) (msg : String) (r r2 : Except String Unit)
    (fetch fetch2 : Except String (List Habit)) :
    ((UseHabits.updateHabit (some u) st id p now r fetch).2.1.take 3 =
      [.setError none,
       .setHabits (UseHabits.optimisticUpdate st.habits id p now),
       .remoteUpdate]) ∧
    ((UseHabits.deleteHabit (some u) st id r2 fetch2).2.1.take 3 =
      [.setError none,
       .setHabits (st.habits.filter (fun h => h.id ≠ id)),
       .remoteDelete]) ∧
    ((UseHabits.toggleCompletion (some u) st id date).2.1 =
      [.setError none,
       .setHabits (st.habits.map (UseHabits.toggleStep id date))]) ∧
    ((UseHabits.createHabit (some u) st inp (.ok hb)).2.1 =
      [.setError none, .remoteCreate, .setHabits (hb :: st.habits)]) ∧
    ((UseHabits.createHabit (some u) st inp (.error msg)).1.habits =
      st.habits) ∧
    ((UseHabits.createHabit (some u) st inp (.error msg)).1.error =
      some msg) := by
  refine ⟨?_, ?_, rfl, rfl, rfl, rfl⟩
  · cases r <;> rfl
  · cases r2 <;> rfl

/-- C5: when the repository create fails, the store createHabit leaves
the habits list untouched (no write of the list appears in the trace),
records the mapped message in the error slot, and re-throws it. -/
theorem C5_create_failure_no_prepend (st : UseHabits.St) (u msg : String)
    (inp : HabitInput) :
    ((UseHabits.createHabit (some u) st inp (.error msg)).1.habits =
      st.habits) ∧
    ((UseHabits.createHabit (some u) st inp (.error msg)).1.error =
      some msg) ∧
    ((UseHabits.createHabit (some u) st inp (.error msg)).2.2 =
      .error msg) ∧
    ((UseHabits.createHabit (some u) st inp (.error msg)).2.1.countP
      UseHabits.Ev.isSetHabits = 0) := by
  exact ⟨rfl, rfl, rfl, rfl⟩

/-- C6: when the repository update or delete fails and the subsequent
authoritative fetch succeeds, the store records the failure message,
then resynchronizes (the trace shows the error write strictly before
the fetch await point and the replacing list write), the final list is
the fresh fetch, and the original error is re-thrown at the end. -/
theorem C6_failure_resync_order (st : UseHabits.St) (u id msg : String)
    (p : HabitPatch) (now : Nat) (fresh : List Habit) :
    ((UseHabits.updateHabit (some u) st id p now (.error msg)
        (.ok fresh)).1.habits = fresh) ∧
    ((UseHabits.updateHabit (some u) st id p now (.error msg)
        (.ok fresh)).1.error = some msg) ∧
    ((UseHabits.updateHabit (some u) st id p now (.error msg)
        (.ok fresh)).2.2 = .error msg) ∧
    ((UseHabits.updateHabit (some u) st id p now (.error msg)
        (.ok fresh)).2.1 =
      [.setError none,
       .setHabits (UseHabits.optimisticUpdate st.habits id p now),
       .remoteUpdate, .setError (some msg), .setLoading true, .remoteGet,
       .setHabits fresh, .setLoading false]) ∧
    ((UseHabits.deleteHabit (some u) st id (.error msg)
        (.ok fresh)).1.habits = fresh) ∧
    ((UseHabits.deleteHabit (some u) st id (.error msg)
        (.ok fresh)).1.error = some msg) ∧
    ((UseHabits.deleteHabit (some u) st id (.error msg)
        (.ok fresh)).2.2 = .error msg) ∧
    ((UseHabits.deleteHabit (some u) st id (.error msg)
        (.ok fresh)).2.1 =
      [.setError none,
       .setHabits (st.habits.filter (fun h => h.id ≠ id)),
       .remoteDelete, .setError (some msg), .setLoading true, .remoteGet,
       .setHabits fresh, .setLoading false]) := by
  exact ⟨rfl, rfl, rfl, rfl, rfl, rfl, rfl, rfl⟩

/-- C7: a title-only update never alters id, userId, completedDates or
createdAt of the target habit, rewrites exactly the supplied title plus
updatedAt both locally and in the remote merge patch, and is the
identity on every habit whose id does not match (stated through the
sublist of non-matching habits). -/
theorem C7_update_frame (h : Habit) (x : String) (now : Nat)
    (d : HabitDocument) (snow : Nat) (id : String)
    (habits : List Habit) :
    ((UseHabits.applyPatch h (titlePatch x) now).completedDates =
      h.completedDates) ∧
    ((UseHabits.applyPatch h (titlePatch x) now).createdAt =
      h.createdAt) ∧
    ((UseHabits.applyPatch h (titlePatch x) now).id = h.id) ∧
    ((UseHabits.applyPatch h (titlePatch x) now).userId = h.userId) ∧
    ((UseHabits.applyPatch h (titlePatch x) now).description =
      h.description) ∧
    ((UseHabits.applyPatch h (titlePatch x) now).frequency =
      h.frequency) ∧
    ((UseHabits.applyPatch h (titlePatch x) now).color = h.color) ∧
    ((UseHabits.applyPatch h (titlePatch x) now).icon = h.icon) ∧
    ((UseHabits.applyPatch h (titlePatch x) now).title = x) ∧
    ((UseHabits.applyPatch h (titlePatch x) now).updatedAt = now) ∧
    (UseHabits.optimisticUpdate
        (habits.filter (fun g => g.id ≠ id)) id (titlePatch x) now =
      habits.filter (fun g => g.id ≠ id)) ∧
    ((HabitService.applyUpdateDoc d (titlePatch x) snow).completedDates =
      d.completedDates) ∧
    ((HabitService.applyUpdateDoc d (titlePatch x) snow).createdAt =
      d.createdAt) ∧
    ((HabitService.applyUpdateDoc d (titlePatch x) snow).userId =
      d.userId) ∧
    ((HabitService.applyUpdateDoc d (titlePatch x) snow).description =
      d.description) ∧
    ((HabitService.applyUpdateDoc d (titlePatch x) snow).frequency =
      d.frequency) ∧
    ((HabitService.applyUpdateDoc d (titlePatch x) snow).color =
      d.color) ∧
    ((HabitService.applyUpdateDoc d (titlePatch x) snow).icon =
      d.icon) ∧
    ((HabitService.applyUpdateDoc d (titlePatch x) snow).title = x) ∧
    ((HabitService.applyUpdateDoc d (titlePatch x) snow).updatedAt =
      snow) := by
  refine ⟨rfl, rfl, rfl, rfl, rfl, rfl, rfl, rfl, rfl, rfl, ?_,
    rfl, rfl, rfl, rfl, rfl, rfl, rfl, rfl, rfl⟩
  unfold UseHabits.optimisticUpdate
  have hcongr : ∀ g ∈ habits.filter (fun g => g.id ≠ id),
      (if g.id = id then UseHabits.applyPatch g (titlePatch x) now
       else g) = (fun a : Habit => a) g := by
    intro g hg
    rw [List.mem_filter] at hg
    have hne : ¬ g.id = id := by simpa using hg.2
    simp [hne]
  rw [List.map_congr_left hcongr]
  simp

/-- C8: attaching an absent session after a signed-in one clears the
visible list, ends loading without touching the error slot, releases the
prior listener (the fake-store listener count is 0), and a snapshot
delivered through any handle, the released one included, is discarded. -/
theorem C8_signout_clears (s : SubSt) (u : String) (tok : Nat)
    (l : List Habit) :
    ((attachSession (attachSession s (some u)) none).habits = []) ∧
    ((attachSession (attachSession s (some u)) none).loading = false) ∧
    ((attachSession (attachSession s (some u)) none).error = s.error) ∧
    (listenerCount (attachSession (attachSession s (some u)) none) = 0) ∧
    (applySnapshot (attachSession (attachSession s (some u)) none) tok l =
      attachSession (attachSession s (some u)) none) := by
  refine ⟨rfl, rfl, rfl, rfl, ?_⟩
  unfold applySnapshot attachSession
  simp

/-- C9: each of the five recognized store error codes maps to its
specific human-readable string, and an unrecognized code falls back to
the raw store message when one is present and non-empty, otherwise to
the generic Failed-to string built from the operation name. -/
theorem C9_error_messages (op raw c : String)
    (hc : c ≠ "permission-denied" ∧ c ≠ "not-found" ∧
      c ≠ "already-exists" ∧ c ≠ "resource-exhausted" ∧
      c ≠ "unavailable")
    (hraw : raw ≠ "") :
    (HabitService.handleFirestoreError ⟨some "permission-denied", some raw⟩
        op = "You do not have permission to perform this action.") ∧
    (HabitService.handleFirestoreError ⟨some "not-found", some raw⟩ op =
      "The requested item was not found.") ∧
    (HabitService.handleFirestoreError ⟨some "already-exists", some raw⟩
        op = "This item already exists.") ∧
    (HabitService.handleFirestoreError ⟨some "resource-exhausted",
        some raw⟩ op = "Too many requests. Please try again later.") ∧
    (HabitService.handleFirestoreError ⟨some "unavailable", some raw⟩ op =
      "Service temporarily unavailable. Please check your connection.") ∧
    (HabitService.handleFirestoreError ⟨some c, some raw⟩ op = raw) ∧
    (HabitService.handleFirestoreError ⟨some c, none⟩ op =
      "Failed to " ++ op ++ ". Please try again.") := by
  obtain ⟨h1, h2, h3, h4, h5⟩ := hc
  unfold HabitService.handleFirestoreError
  refine ⟨?_, ?_, ?_, ?_, ?_, ?_, ?_⟩ <;> simp [h1, h2, h3, h4, h5, hraw]

/-- C9 witness at a concrete operation, raw message and unknown code. -/
theorem C9_error_messages_witness :
    (HabitService.handleFirestoreError ⟨some "permission-denied",
        some "boom"⟩ "create habit" =
      "You do not have permission to perform this action.") ∧
    (HabitService.handleFirestoreError ⟨some "not-found", some "boom"⟩
        "create habit" = "The requested item was not found.") ∧
    (HabitService.handleFirestoreError ⟨some "already-exists",
        some "boom"⟩ "create habit" = "This item already exists.") ∧
    (HabitService.handleFirestoreError ⟨some "resource-exhausted",
        some "boom"⟩ "create habit" =
      "Too many requests. Please try again later.") ∧
    (HabitService.handleFirestoreError ⟨some "unavailable", some "boom"⟩
        "create habit" =
      "Service temporarily unavailable. Please check your connection.") ∧
    (HabitService.handleFirestoreError ⟨some "weird-code", some "boom"⟩
        "create habit" = "boom") ∧
    (HabitService.handleFirestoreError ⟨some "weird-code", none⟩
        "create habit" =
      "Failed to " ++ "create habit" ++ ". Please try again.") :=
  C9_error_messages "create habit" "boom" "weird-code"
    (by refine ⟨?_, ?_, ?_, ?_, ?_⟩ <;> decide) (by decide)

/-- C10: toggleCompletion with an attached session reaches no remote
await point, resolves successfully, never records an error (its only
error-slot write is the initial clear), and when no habit of the local
list carries the requested id it leaves the list, and the rest of the
state, unchanged. -/
theorem C10_toggle_local_only (st : UseHabits.St) (u id date : String) :
    ((UseHabits.toggleCompletion (some u) st id date).2.2 = .ok ()) ∧
    ((UseHabits.toggleCompletion (some u) st id date).1.error = none) ∧
    ((UseHabits.toggleCompletion (some u) st id date).2.1.countP
      UseHabits.Ev.isRemote = 0) ∧
    ((UseHabits.toggleCompletion (some u) st id date).2.1.countP
      UseHabits.Ev.isErrorWrite = 0) ∧
    ((UseHabits.toggleCompletion (some u) st id date).1.loading =
      st.loading) ∧
    ((∀ h ∈ st.habits, h.id ≠ id) →
      (UseHabits.toggleCompletion (some u) st id date).1.habits =
        st.habits) := by
  refine ⟨rfl, rfl, rfl, rfl, rfl, ?_⟩
  intro habsent
  show st.habits.map (UseHabits.toggleStep id date) = st.habits
  have hcongr : ∀ g ∈ st.habits,
      UseHabits.toggleStep id date g = (fun a : Habit => a) g := by
    intro g hg
    unfold UseHabits.toggleStep
    simp [habsent g hg]
  rw [List.map_congr_left hcongr]
  simp

/-- C10 witness: one habit named h1, toggling the unknown id zz, with
the absent-id premise of the frame conjunct discharged concretely. -/
theorem C10_toggle_local_only_witness :
    ((UseHabits.toggleCompletion (some "u1") ⟨[sampleHabit], false, none⟩
        "zz" "2024-01-01").2.2 = .ok ()) ∧
    ((UseHabits.toggleCompletion (some "u1") ⟨[sampleHabit], false, none⟩
        "zz" "2024-01-01").1.error = none) ∧
    ((UseHabits.toggleCompletion (some "u1") ⟨[sampleHabit], false, none⟩
        "zz" "2024-01-01").2.1.countP UseHabits.Ev.isRemote = 0) ∧
    ((UseHabits.toggleCompletion (some "u1") ⟨[sampleHabit], false, none⟩
        "zz" "2024-01-01").2.1.countP UseHabits.Ev.isErrorWrite = 0) ∧
    ((UseHabits.toggleCompletion (some "u1") ⟨[sampleHabit], false, none⟩
        "zz" "2024-01-01").1.loading = false) ∧
    ((UseHabits.toggleCompletion (some "u1") ⟨[sampleHabit], false, none⟩
        "zz" "2024-01-01").1.habits = [sampleHabit]) :=
  let c := C10_toggle_local_only ⟨[sampleHabit], false, none⟩ "u1" "zz"
    "2024-01-01"
  ⟨c.1, c.2.1, c.2.2.1, c.2.2.2.1, c.2.2.2.2.1,
   c.2.2.2.2.2 (by decide)⟩

end HabitTracker
